import Mathlib

/-!
Shallow embedding of the two HTTP services of the HL7-API repository:

* `src/main.py` — FastAPI middleware for a laboratory analyzer (login with
  JWT token issuance, three token-gated analyzer endpoints speaking a flat
  pipe-delimited protocol over static mock data);
* `src/server.py` — Flask HL7 server (receive / validate endpoints around
  the third-party hl7 parser, plus an in-memory message store).

Machine integers do not occur; times are modelled as natural numbers
(seconds since the epoch).  The JWT layer (the PyJWT library) is modelled
symbolically: a presented token text is either the empty string, a
well-formed JWT signed with some key, or undecodable garbage; signature
verification is key equality.  The hl7 library's parse is modelled at the
granularity the handlers use it (segment and field splitting with the
standard separators), following its documented behaviour as described in
the spec and exercised by the repository's own test-suite.
-/

namespace HL7API

/-! ## Python string primitives

The handlers use str.split with a one-character separator and str.strip.
They are modelled by structural recursion over the character list of the
string so that every definition evaluates inside the kernel. -/

/-- Characters removed by Python str.strip with no argument (the ASCII
whitespace characters; the message bodies at hand contain no other
Unicode whitespace). -/
def isPySpace (c : Char) : Bool :=
  c == ' ' || c == '\t' || c == '\n' || c == '\r' || c == '\x0b' || c == '\x0c'

/-- Splitting of a character list on a separator character, keeping empty
chunks, as Python str.split(sep) does. -/
def splitCharList (sep : Char) : List Char → List (List Char)
  | [] => [[]]
  | c :: cs =>
      let r := splitCharList sep cs
      if c = sep then [] :: r else (c :: r.headD []) :: r.tail

/-- Model of Python s.split(sep) for a one-character separator. -/
def pysplit (sep : Char) (s : String) : List String :=
  (splitCharList sep s.data).map String.mk

/-- Model of Python s.strip(). -/
def pystrip (s : String) : String :=
  String.mk (((s.data.dropWhile isPySpace).reverse.dropWhile isPySpace).reverse)

/-! ## Token service (src/main.py lines 17-73) -/

/-- Configuration constant TOKEN_EXPIRATION_MINUTES = 60 (main.py line 20). -/
def TOKEN_EXPIRATION_MINUTES : Nat := 60

/-- Hardcoded credential VALID_USERNAME = "wsadmin" (main.py line 23). -/
def VALID_USERNAME : String := "wsadmin"

/-- Hardcoded credential VALID_PASSWORD = "password" (main.py line 24). -/
def VALID_PASSWORD : String := "password"

/-- Claims carried by a JWT issued by generate_token (main.py lines 57-61):
subject, issued-at and expiry instant, in seconds since the epoch. -/
structure Claims where
  sub : String
  iat : Nat
  exp : Nat
deriving DecidableEq, Repr

/-- Symbolic model of a token text as presented in the token header.
A presented string is either empty, a well-formed JWT whose signature was
produced with signing key `key` (signature verification succeeds exactly
when `key` equals the server's secret), or any other undecodable text. -/
inductive TokenText where
  | empty : TokenText
  | signed (key : Nat) (claims : Claims) : TokenText
  | garbage (s : String) : TokenText
deriving DecidableEq, Repr

/-- Model of jwt.encode: a concrete injective rendering of the signed
payload, standing in for the base64 JWT string. -/
def jwt_encode (key : Nat) (c : Claims) : String :=
  toString key ++ "." ++ c.sub ++ "." ++ toString c.iat ++ "." ++ toString c.exp

/-- Rendering of a token text back to the string that was presented. -/
def TokenText.render : TokenText → String
  | .empty => ""
  | .signed key c => jwt_encode key c
  | .garbage s => s

/-- Python truthiness of the Optional[str] token header: None and the
empty string are falsy, every other string is truthy
(the `if not token` guard in main.py lines 109, 149, 200). -/
def tokenTruthy : Option TokenText → Bool
  | none => false
  | some .empty => false
  | some _ => true

/-- generate_token (main.py lines 55-62): builds the payload
{sub = username, iat = now, exp = now + 60 minutes} and signs it with the
process secret. -/
def generate_token (secret now : Nat) (username : String) : TokenText :=
  .signed secret { sub := username, iat := now, exp := now + TOKEN_EXPIRATION_MINUTES * 60 }

/-- validate_token (main.py lines 65-73): jwt.decode first verifies the
signature — failure (undecodable text or wrong key) raises
InvalidTokenError, surfaced as the INVALID_LOGIN detail — and then checks
expiry: ExpiredSignatureError, surfaced as EXPIRED_TOKEN, exactly when the
current time has reached the exp claim. -/
def validate_token (secret now : Nat) : TokenText → Except String Claims
  | .signed key c =>
      if key = secret then
        if c.exp ≤ now then .error "EXPIRED_TOKEN" else .ok c
      else .error "INVALID_LOGIN"
  | _ => .error "INVALID_LOGIN"

/-- login endpoint /lis_apis/applogin (main.py lines 76-92). -/
def login (secret now : Nat) (userName password : String) : String :=
  if userName = VALID_USERNAME ∧ password = VALID_PASSWORD then
    "OK_LOGIN|" ++ (generate_token secret now userName).render
  else "INVALID_LOGIN"

/-! ## Analyzer endpoints (src/main.py lines 95-217) -/

/-- A sample record of the MOCK_SAMPLES dictionary (main.py lines 27-42). -/
structure Sample where
  patient_id : String
  patient_name : String
  patient_gender : String
  patient_dob : String
  tests : List String
deriving DecidableEq, Repr

/-- MOCK_SAMPLES (main.py lines 27-42), as an association list in
insertion order. -/
def MOCK_SAMPLES : List (String × Sample) :=
  [ ("S001", { patient_id := "P12345", patient_name := "John Doe",
               patient_gender := "M", patient_dob := "1980-01-15",
               tests := ["CBC", "GLU", "CRE"] }),
    ("S002", { patient_id := "P67890", patient_name := "Jane Smith",
               patient_gender := "F", patient_dob := "1990-05-20",
               tests := ["HBA1C", "TSH"] }) ]

/-- MOCK_TESTS (main.py lines 44-52), code/name pairs in insertion order
(Python dict iteration order is insertion order). -/
def MOCK_TESTS : List (String × String) :=
  [ ("CBC", "Complete Blood Count"), ("GLU", "Glucose"), ("CRE", "Creatinine"),
    ("HBA1C", "Hemoglobin A1C"), ("TSH", "Thyroid Stimulating Hormone"),
    ("ALT", "Alanine Aminotransferase"), ("AST", "Aspartate Aminotransferase") ]

/-- The common auth gate of the three analyzer endpoints (main.py lines
109-115, 149-155, 200-206): `if not token: return "INVALID_LOGIN"`, then
validate_token with the HTTPException detail returned as the body.
Returns the error text, or none when the request may proceed. -/
def auth_gate (secret now : Nat) (token : Option TokenText) : Option String :=
  match token with
  | none => some "INVALID_LOGIN"
  | some t =>
      if tokenTruthy (some t) = false then some "INVALID_LOGIN"
      else
        match validate_token secret now t with
        | .error e => some e
        | .ok _ => none

/-- get_pending_tests, endpoint /lis_apis/tests_lis_download/{sample_id}
(main.py lines 95-133).  The samples directory is passed explicitly; the
running service instantiates it with MOCK_SAMPLES. -/
def get_pending_tests (samples : List (String × Sample)) (secret now : Nat)
    (sample_id : String) (token : Option TokenText) : String :=
  match auth_gate secret now token with
  | some e => e
  | none =>
    match samples.lookup sample_id with
    | none => "NOT_FOUND"
    | some sample =>
        "|".intercalate
          ([ "QUERY_OK", toString sample.tests.length, sample.patient_id,
             sample.patient_name, sample.patient_gender, sample.patient_dob ]
           ++ sample.tests)

/-- Per-part status flag of upload_results (main.py lines 170-182):
Python `"=" in part`, then `part.split("=", 1)` whose first element is the
text before the first '=' sign. -/
def upload_flag (tests : List String) (part : String) : String :=
  if part.data.contains '=' then
    if tests.contains ((pysplit '=' part).headD "") then "UPLOADED" else "NOT_FOUND"
  else "NOT_FOUND"

/-- upload_results, endpoint /lis_apis/results_lis_upload/{path_data}
(main.py lines 136-184). -/
def upload_results (samples : List (String × Sample)) (secret now : Nat)
    (path_data : String) (token : Option TokenText) : String :=
  match auth_gate secret now token with
  | some e => e
  | none =>
    let parts := pysplit '|' path_data
    if parts.length < 2 then "NOT_FOUND"
    else
      match samples.lookup (parts.headD "") with
      | none => "NOT_FOUND"
      | some sample =>
          "|".intercalate ((parts.drop 1).map (upload_flag sample.tests))

/-- get_tests_list, endpoint /lis_apis/get_tests_list (main.py lines
187-217). -/
def get_tests_list (tests : List (String × String)) (secret now : Nat)
    (token : Option TokenText) : String :=
  match auth_gate secret now token with
  | some e => e
  | none =>
    if tests.isEmpty then "NOT_FOUND"
    else
      "|".intercalate
        ("QUERY_OK" :: toString tests.length
          :: tests.map (fun ct => ct.1 ++ "\t" ++ ct.2))

/-! ## HL7 message parsing (third-party hl7 library, used by src/server.py)

A decoded message is an ordered list of segments, each an ordered list of
fields.  Fields whose components the handlers only ever render back with
str() are kept as raw strings.  The parse model follows the library's
documented behaviour: the input is stripped of surrounding whitespace,
split on the carriage-return segment terminator into non-empty lines, and
each line is split on the field delimiter; in an MSH segment the field
delimiter itself is field 1, so the message-type field ADT^A01 of the
standard header sits at index 9.  Parsing fails on an empty (or
whitespace-only) blob. -/

/-- Fields of one segment line.  For the MSH header segment the hl7
library inserts the field separator as field 1, shifting the remaining
fields up by one. -/
def parseSegmentFields (line : String) : List String :=
  match pysplit '|' line with
  | "MSH" :: rest => "MSH" :: "|" :: rest
  | fields => fields

/-- Model of hl7.parse (server.py lines 43 and 111): none models a raised
ParseException. -/
def hl7parse (raw : String) : Option (List (List String)) :=
  let s := pystrip raw
  let lines := (pysplit '\r' s).filter (fun l => l ≠ "")
  if s = "" ∨ lines = [] then none
  else some (lines.map parseSegmentFields)

/-- Model of message.segment('MSH') (server.py lines 46, 116, 118): the
first segment whose field 0 is MSH; none models the KeyError raised when
no segment matches. -/
def segmentMSH (msg : List (List String)) : Option (List String) :=
  msg.find? (fun seg => seg.headD "" = "MSH")

/-- Model of str(message.segment('MSH')[9]) (server.py lines 46 and 116):
none models the KeyError of a missing MSH segment or the IndexError of a
header with fewer than ten fields, both caught by the enclosing handler. -/
def message_type_of (msg : List (List String)) : Option String :=
  match segmentMSH msg with
  | none => none
  | some seg => seg[9]?

/-! ## HL7 server handlers (src/server.py) -/

/-- A record of the received_messages store (server.py lines 49-54). -/
structure MessageRecord where
  timestamp : String
  message_type : String
  raw_message : String
  segment_count : Nat
deriving DecidableEq, Repr

/-- JSON body of a response of the receive endpoint. -/
inductive ReceiveResp where
  | err (error : String) : ReceiveResp
  | success (message_type : String) (segment_count : Nat) (timestamp : String) : ReceiveResp
deriving DecidableEq, Repr

/-- receive_hl7_message, endpoint POST /api/v1/hl7/message (server.py
lines 25-69), with the module-level received_messages store passed in and
returned and the receipt timestamp now supplied by the clock.  Returns
((http status, JSON body), new store). -/
def receive_hl7_message (now body : String) (store : List MessageRecord) :
    (Nat × ReceiveResp) × List MessageRecord :=
  if body = "" then ((400, .err "No message data provided"), store)
  else
    match hl7parse body with
    | none => ((400, .err "Failed to parse HL7 message"), store)
    | some msg =>
      match message_type_of msg with
      | none => ((400, .err "Failed to parse HL7 message"), store)
      | some mt =>
          let record : MessageRecord :=
            { timestamp := now, message_type := mt,
              raw_message := body, segment_count := msg.length }
          ((200, .success mt msg.length now), store ++ [record])

/-- JSON body of a response of the validate endpoint: either
{valid:false, error} or {valid:true, message_type, segment_count,
has_msh, segments}. -/
inductive ValidateResp where
  | invalid (error : String) : ValidateResp
  | report (message_type : Option String) (segment_count : Nat)
      (has_msh : Bool) (segments : List String) : ValidateResp
deriving DecidableEq, Repr

/-- validate_hl7_message, endpoint POST /api/v1/hl7/validate (server.py
lines 93-130), with the store passed through like receive_hl7_message.
The handler never touches the store.  A parse or extraction exception on
a non-empty body is answered with HTTP 200 and valid:false; an empty body
with HTTP 400 and valid:false. -/
def validate_hl7_message (body : String) (store : List MessageRecord) :
    (Nat × ValidateResp) × List MessageRecord :=
  if body = "" then ((400, .invalid "No message data provided"), store)
  else
    match hl7parse body with
    | none => ((200, .invalid "Invalid HL7 message format"), store)
    | some msg =>
      match message_type_of msg with
      | none => ((200, .invalid "Invalid HL7 message format"), store)
      | some mt =>
          ((200, .report (some mt) msg.length (segmentMSH msg).isSome
              (msg.map (fun seg => seg.headD ""))), store)

/-! ## Claim-side definitions for comparison -/

/-- Formalisation of the claim's wording of the per-part upload flag: a
part is UPLOADED exactly when it contains exactly one equals sign and the
test code before the equals sign is in the sample's test list. -/
def claimUploadFlag (tests : List String) (part : String) : String :=
  if part.data.count '=' = 1 ∧ tests.contains ((pysplit '=' part).headD "") then
    "UPLOADED"
  else "NOT_FOUND"

/-- Amended per-part upload flag: a part is UPLOADED exactly when it
contains at least one equals sign and the test code before the first
equals sign is in the sample's test list. -/
def amendedUploadFlag (tests : List String) (part : String) : String :=
  if part.data.contains '=' ∧ tests.contains ((pysplit '=' part).headD "") then
    "UPLOADED"
  else "NOT_FOUND"

/-! ## Helper lemmas -/

/-- A successful login response never collides with the failure sentinel. -/
theorem ok_login_append_ne_invalid (s : String) :
    "OK_LOGIN|" ++ s ≠ "INVALID_LOGIN" := by
  intro h
  have h2 : ("OK_LOGIN|" ++ s).data = "INVALID_LOGIN".data := congrArg String.data h
  rw [String.data_append] at h2
  have h3 : (("OK_LOGIN|".data ++ s.data).head? : Option Char) = some 'I' := by
    rw [h2]; rfl
  rw [show "OK_LOGIN|".data = 'O' :: "K_LOGIN|".data from rfl] at h3
  simp at h3

/-- The auth gate admits a request presenting a token signed with the
server's secret and not yet expired. -/
theorem auth_gate_ok (secret now : Nat) (c : Claims) (h : now < c.exp) :
    auth_gate secret now (some (.signed secret c)) = none := by
  have h' : ¬ c.exp ≤ now := Nat.not_le.mpr h
  simp [auth_gate, tokenTruthy, validate_token, h']

/-- The auth gate surfaces the detail of a failed token validation. -/
theorem auth_gate_err (secret now : Nat) (t : TokenText) (e : String)
    (h : validate_token secret now t = .error e) :
    auth_gate secret now (some t) = some e := by
  cases t with
  | empty =>
      simp only [validate_token, Except.error.injEq] at h
      simp [auth_gate, tokenTruthy, ← h]
  | signed key c => simp [auth_gate, tokenTruthy, h]
  | garbage s => simp [auth_gate, tokenTruthy, h]

/-- The code's per-part flag agrees with the amended description. -/
theorem upload_flag_eq_amended (ts : List String) (p : String) :
    upload_flag ts p = amendedUploadFlag ts p := by
  unfold upload_flag amendedUploadFlag
  by_cases h1 : '=' ∈ p.data <;>
    by_cases h2 : (pysplit '=' p).head?.getD "" ∈ ts <;>
      simp [h1, h2]

/-! ## Claim theorems -/

/-- C1: the login operation answers OK_LOGIN| followed by the freshly
issued token exactly for the fixed valid username/password pair, and the
literal INVALID_LOGIN for every other pair, so that wrong-username and
wrong-password inputs are indistinguishable; the two response shapes never
collide. -/
theorem login_responses (secret now : Nat) (u p u' p' : String)
    (hok : u = VALID_USERNAME ∧ p = VALID_PASSWORD)
    (hbad : ¬(u' = VALID_USERNAME ∧ p' = VALID_PASSWORD)) :
    login secret now u p = "OK_LOGIN|" ++ (generate_token secret now u).render
    ∧ login secret now u' p' = "INVALID_LOGIN"
    ∧ login secret now u p ≠ login secret now u' p' := by
  have h1 : login secret now u p
      = "OK_LOGIN|" ++ (generate_token secret now u).render := by
    simp [login, hok]
  have h2 : login secret now u' p' = "INVALID_LOGIN" := by
    simp [login, hbad]
  refine ⟨h1, h2, ?_⟩
  rw [h1, h2]
  exact ok_login_append_ne_invalid _

/-- C1 witness. -/
theorem login_responses_witness :
    login 7 100 "wsadmin" "password"
      = "OK_LOGIN|" ++ (generate_token 7 100 "wsadmin").render
    ∧ login 7 100 "wsadmin" "hunter2" = "INVALID_LOGIN"
    ∧ login 7 100 "wsadmin" "password" ≠ login 7 100 "wsadmin" "hunter2" :=
  login_responses 7 100 "wsadmin" "password" "wsadmin" "hunter2"
    ⟨rfl, rfl⟩ (by decide)

/-- C2: a successful login returns OK_LOGIN| with the token generated for
the logged-in user; validating that token at any instant before its expiry
succeeds with claims whose subject is the username and whose expiry is 60
minutes after issuance; any other credential pair gets INVALID_LOGIN. -/
theorem token_roundtrip (secret now t : Nat) (u' p' : String)
    (hbefore : t < now + TOKEN_EXPIRATION_MINUTES * 60)
    (hbad : ¬(u' = VALID_USERNAME ∧ p' = VALID_PASSWORD)) :
    login secret now VALID_USERNAME VALID_PASSWORD
      = "OK_LOGIN|" ++ (generate_token secret now VALID_USERNAME).render
    ∧ validate_token secret t (generate_token secret now VALID_USERNAME)
        = .ok { sub := VALID_USERNAME, iat := now,
                exp := now + TOKEN_EXPIRATION_MINUTES * 60 }
    ∧ login secret now u' p' = "INVALID_LOGIN" := by
  refine ⟨by simp [login], ?_, by simp [login, hbad]⟩
  have h' : ¬ now + TOKEN_EXPIRATION_MINUTES * 60 ≤ t := Nat.not_le.mpr hbefore
  simp [generate_token, validate_token, h']

/-- C2 witness. -/
theorem token_roundtrip_witness :
    login 7 100 VALID_USERNAME VALID_PASSWORD
      = "OK_LOGIN|" ++ (generate_token 7 100 VALID_USERNAME).render
    ∧ validate_token 7 3699 (generate_token 7 100 VALID_USERNAME)
        = .ok { sub := VALID_USERNAME, iat := 100,
                exp := 100 + TOKEN_EXPIRATION_MINUTES * 60 }
    ∧ login 7 100 "intruder" "password" = "INVALID_LOGIN" :=
  token_roundtrip 7 100 3699 "intruder" "password" (by decide) (by decide)

/-- C3: token validation fails with EXPIRED_TOKEN exactly when the
signature verifies (the signing key is the server secret) and the current
time has reached the expiry instant; it fails with INVALID_LOGIN on empty,
garbage or wrongly-signed tokens (and the gate answers INVALID_LOGIN to an
absent token); otherwise it returns the claims. -/
theorem validate_token_taxonomy (secret now key : Nat) (c : Claims) (g : String) :
    (validate_token secret now (.signed key c) = .error "EXPIRED_TOKEN"
        ↔ key = secret ∧ c.exp ≤ now)
    ∧ (validate_token secret now (.signed key c) = .ok c
        ↔ key = secret ∧ now < c.exp)
    ∧ validate_token secret now .empty = .error "INVALID_LOGIN"
    ∧ validate_token secret now (.garbage g) = .error "INVALID_LOGIN"
    ∧ (key ≠ secret →
        validate_token secret now (.signed key c) = .error "INVALID_LOGIN")
    ∧ auth_gate secret now none = some "INVALID_LOGIN" := by
  refine ⟨?_, ?_, rfl, rfl, fun hne => by simp [validate_token, hne], rfl⟩
  · constructor
    · intro h
      by_cases hk : key = secret
      · refine ⟨hk, ?_⟩
        by_cases he : c.exp ≤ now
        · exact he
        · simp [validate_token, hk, he] at h
      · simp [validate_token, hk] at h
    · rintro ⟨hk, he⟩
      simp [validate_token, hk, he]
  · constructor
    · intro h
      by_cases hk : key = secret
      · refine ⟨hk, ?_⟩
        by_cases he : c.exp ≤ now
        · simp [validate_token, hk, he] at h
        · exact Nat.not_le.mp he
      · simp [validate_token, hk] at h
    · rintro ⟨hk, he⟩
      simp [validate_token, hk, Nat.not_le.mpr he]

/-- C3 witness. -/
theorem validate_token_taxonomy_witness :
    (validate_token 7 100 (.signed 9 { sub := "u", iat := 0, exp := 50 })
        = .error "EXPIRED_TOKEN"
      ↔ (9 : Nat) = 7 ∧ (50 : Nat) ≤ 100)
    ∧ (validate_token 7 100 (.signed 9 { sub := "u", iat := 0, exp := 50 })
        = .ok { sub := "u", iat := 0, exp := 50 }
      ↔ (9 : Nat) = 7 ∧ (100 : Nat) < 50)
    ∧ validate_token 7 100 .empty = .error "INVALID_LOGIN"
    ∧ validate_token 7 100 (.garbage "not.a.jwt") = .error "INVALID_LOGIN"
    ∧ ((9 : Nat) ≠ 7 →
        validate_token 7 100 (.signed 9 { sub := "u", iat := 0, exp := 50 })
          = .error "INVALID_LOGIN")
    ∧ auth_gate 7 100 none = some "INVALID_LOGIN" :=
  validate_token_taxonomy 7 100 9 { sub := "u", iat := 0, exp := 50 } "not.a.jwt"

/-- C4: each of the three gated analyzer endpoints answers exactly
INVALID_LOGIN to a missing token header, and the failed validation's
sentinel text to an invalid or expired token, independently of the sample
directory, the test directory, the sample id and the upload payload — so
before any lookup or parsing can influence the response. -/
theorem gated_endpoints_auth (samples : List (String × Sample))
    (tests : List (String × String)) (secret now : Nat) (sid pd : String)
    (t : TokenText) (e : String)
    (hv : validate_token secret now t = .error e) :
    get_pending_tests samples secret now sid none = "INVALID_LOGIN"
    ∧ upload_results samples secret now pd none = "INVALID_LOGIN"
    ∧ get_tests_list tests secret now none = "INVALID_LOGIN"
    ∧ get_pending_tests samples secret now sid (some t) = e
    ∧ upload_results samples secret now pd (some t) = e
    ∧ get_tests_list tests secret now (some t) = e := by
  have hg := auth_gate_err secret now t e hv
  exact ⟨rfl, rfl, rfl,
    by simp [get_pending_tests, hg],
    by simp [upload_results, hg],
    by simp [get_tests_list, hg]⟩

/-- C4 witness: an expired token on every endpoint, over the mock data. -/
theorem gated_endpoints_auth_witness :
    get_pending_tests MOCK_SAMPLES 7 5000 "S001" none = "INVALID_LOGIN"
    ∧ upload_results MOCK_SAMPLES 7 5000 "S001|CBC=5.2" none = "INVALID_LOGIN"
    ∧ get_tests_list MOCK_TESTS 7 5000 none = "INVALID_LOGIN"
    ∧ get_pending_tests MOCK_SAMPLES 7 5000 "S001"
        (some (.signed 7 { sub := "wsadmin", iat := 0, exp := 3600 }))
        = "EXPIRED_TOKEN"
    ∧ upload_results MOCK_SAMPLES 7 5000 "S001|CBC=5.2"
        (some (.signed 7 { sub := "wsadmin", iat := 0, exp := 3600 }))
        = "EXPIRED_TOKEN"
    ∧ get_tests_list MOCK_TESTS 7 5000
        (some (.signed 7 { sub := "wsadmin", iat := 0, exp := 3600 }))
        = "EXPIRED_TOKEN" :=
  gated_endpoints_auth MOCK_SAMPLES MOCK_TESTS 7 5000 "S001" "S001|CBC=5.2"
    (.signed 7 { sub := "wsadmin", iat := 0, exp := 3600 }) "EXPIRED_TOKEN" rfl

/-- C5 counterexample: on the authenticated upload S001|CBC=1=2 the code
answers UPLOADED for the part CBC=1=2, although that part contains two
equals signs, so the claimed exactly-one-equals-sign rule would flag it
NOT_FOUND. -/
theorem upload_exactly_one_eq_cex :
    upload_results MOCK_SAMPLES 7 100 "S001|CBC=1=2"
        (some (.signed 7 { sub := "wsadmin", iat := 100, exp := 3700 }))
      = "UPLOADED"
    ∧ "CBC=1=2".data.count '=' = 2
    ∧ claimUploadFlag ["CBC", "GLU", "CRE"] "CBC=1=2" = "NOT_FOUND"
    ∧ ("UPLOADED" : String) ≠ "NOT_FOUND" := by
  refine ⟨?_, by decide, by decide, by decide⟩
  decide

/-- C5 amended: for every authenticated upload, fewer than two
pipe-segments or an unknown sample id answer NOT_FOUND; otherwise the
response is the pipe-join of one flag per subsequent part, in submission
order, where a part is UPLOADED exactly when it contains at least one
equals sign and the test code before the first equals sign is in the
sample's test list, and NOT_FOUND otherwise. -/
theorem upload_results_amended (samples : List (String × Sample))
    (secret now : Nat) (r : String) (c : Claims) (s : Sample)
    (hexp : now < c.exp) :
    ((pysplit '|' r).length < 2 →
        upload_results samples secret now r (some (.signed secret c))
          = "NOT_FOUND")
    ∧ (samples.lookup ((pysplit '|' r).headD "") = none →
        upload_results samples secret now r (some (.signed secret c))
          = "NOT_FOUND")
    ∧ (2 ≤ (pysplit '|' r).length →
        samples.lookup ((pysplit '|' r).headD "") = some s →
        upload_results samples secret now r (some (.signed secret c))
          = "|".intercalate
              (((pysplit '|' r).drop 1).map (amendedUploadFlag s.tests))) := by
  have hg := auth_gate_ok secret now c hexp
  refine ⟨fun hlen => ?_, fun hnone => ?_, fun hlen hsome => ?_⟩
  · simp [upload_results, hg, hlen]
  · by_cases hlen : (pysplit '|' r).length < 2
    · simp [upload_results, hg, hlen]
    · simp only [List.headD_eq_head?_getD] at hnone
      simp [upload_results, hg, hlen, hnone]
  · have hlen' : ¬ (pysplit '|' r).length < 2 := Nat.not_lt.mpr hlen
    simp only [List.headD_eq_head?_getD] at hsome
    have hfl : upload_flag s.tests = amendedUploadFlag s.tests :=
      funext (upload_flag_eq_amended s.tests)
    simp [upload_results, hg, hlen', hsome, hfl]

/-- C5 amended witness: a well-formed, an unknown-code and a malformed
part, plus the two NOT_FOUND short-circuits. -/
theorem upload_results_amended_witness :
    ((pysplit '|' "S001").length < 2 →
        upload_results MOCK_SAMPLES 7 100 "S001"
          (some (.signed 7 { sub := "wsadmin", iat := 100, exp := 3700 }))
          = "NOT_FOUND")
    ∧ (MOCK_SAMPLES.lookup ((pysplit '|' "S001|CBC=5.2|XYZ=1|junk").headD "")
          = none →
        upload_results MOCK_SAMPLES 7 100 "S001|CBC=5.2|XYZ=1|junk"
          (some (.signed 7 { sub := "wsadmin", iat := 100, exp := 3700 }))
          = "NOT_FOUND")
    ∧ (2 ≤ (pysplit '|' "S001|CBC=5.2|XYZ=1|junk").length →
        MOCK_SAMPLES.lookup ((pysplit '|' "S001|CBC=5.2|XYZ=1|junk").headD "")
          = some { patient_id := "P12345", patient_name := "John Doe",
                   patient_gender := "M", patient_dob := "1980-01-15",
                   tests := ["CBC", "GLU", "CRE"] } →
        upload_results MOCK_SAMPLES 7 100 "S001|CBC=5.2|XYZ=1|junk"
          (some (.signed 7 { sub := "wsadmin", iat := 100, exp := 3700 }))
          = "|".intercalate
              (((pysplit '|' "S001|CBC=5.2|XYZ=1|junk").drop 1).map
                (amendedUploadFlag ["CBC", "GLU", "CRE"]))) := by
  have h := upload_results_amended MOCK_SAMPLES 7 100 "S001|CBC=5.2|XYZ=1|junk"
    { sub := "wsadmin", iat := 100, exp := 3700 }
    { patient_id := "P12345", patient_name := "John Doe",
      patient_gender := "M", patient_dob := "1980-01-15",
      tests := ["CBC", "GLU", "CRE"] } (by decide)
  have h1 := (upload_results_amended MOCK_SAMPLES 7 100 "S001"
    { sub := "wsadmin", iat := 100, exp := 3700 }
    { patient_id := "P12345", patient_name := "John Doe",
      patient_gender := "M", patient_dob := "1980-01-15",
      tests := ["CBC", "GLU", "CRE"] } (by decide)).1
  exact ⟨h1, h.2.1, h.2.2⟩

/-- C6: an authenticated pending-tests download answers, for a known
sample id, QUERY_OK followed by the test count, the patient fields and the
sample's test codes in stored order, all pipe-joined; for an unknown
sample id it answers exactly NOT_FOUND. -/
theorem tests_download_spec (secret now : Nat) (c : Claims) (sid : String)
    (s : Sample) (hexp : now < c.exp) :
    (MOCK_SAMPLES.lookup sid = none →
        get_pending_tests MOCK_SAMPLES secret now sid
          (some (.signed secret c)) = "NOT_FOUND")
    ∧ (MOCK_SAMPLES.lookup sid = some s →
        pysplit '|' (get_pending_tests MOCK_SAMPLES secret now sid
            (some (.signed secret c)))
          = "QUERY_OK" :: toString s.tests.length :: s.patient_id
              :: s.patient_name :: s.patient_gender :: s.patient_dob
              :: s.tests) := by
  have hg := auth_gate_ok secret now c hexp
  refine ⟨fun hnone => ?_, fun hsome => ?_⟩
  · simp [get_pending_tests, hg, hnone]
  · have hsid : sid = "S001" ∨ sid = "S002" := by
      by_contra hcon
      push_neg at hcon
      have hb1 : (sid == "S001") = false := beq_eq_false_iff_ne.mpr hcon.1
      have hb2 : (sid == "S002") = false := beq_eq_false_iff_ne.mpr hcon.2
      simp [MOCK_SAMPLES, List.lookup, hb1, hb2] at hsome
    rcases hsid with h1 | h1 <;> subst h1
    · simp only [MOCK_SAMPLES, List.lookup, beq_self_eq_true,
        Option.some.injEq] at hsome
      subst hsome
      simp [get_pending_tests, hg, MOCK_SAMPLES, List.lookup]
      decide
    · simp only [MOCK_SAMPLES, List.lookup,
        show (("S002" : String) == "S001") = false by decide,
        beq_self_eq_true, Option.some.injEq] at hsome
      subst hsome
      simp [get_pending_tests, hg, MOCK_SAMPLES, List.lookup]
      decide

/-- C6 witness: the known sample S001 and the unknown sample S999. -/
theorem tests_download_spec_witness :
    (MOCK_SAMPLES.lookup "S999" = none →
        get_pending_tests MOCK_SAMPLES 7 100 "S999"
          (some (.signed 7 { sub := "wsadmin", iat := 100, exp := 3700 }))
          = "NOT_FOUND")
    ∧ (MOCK_SAMPLES.lookup "S001"
          = some { patient_id := "P12345", patient_name := "John Doe",
                   patient_gender := "M", patient_dob := "1980-01-15",
                   tests := ["CBC", "GLU", "CRE"] } →
        pysplit '|' (get_pending_tests MOCK_SAMPLES 7 100 "S001"
            (some (.signed 7 { sub := "wsadmin", iat := 100, exp := 3700 })))
          = "QUERY_OK" :: toString (["CBC", "GLU", "CRE"] : List String).length
              :: "P12345" :: "John Doe" :: "M" :: "1980-01-15"
              :: ["CBC", "GLU", "CRE"]) :=
  ⟨(tests_download_spec 7 100 { sub := "wsadmin", iat := 100, exp := 3700 }
      "S999" { patient_id := "P12345", patient_name := "John Doe",
               patient_gender := "M", patient_dob := "1980-01-15",
               tests := ["CBC", "GLU", "CRE"] } (by decide)).1,
   (tests_download_spec 7 100 { sub := "wsadmin", iat := 100, exp := 3700 }
      "S001" { patient_id := "P12345", patient_name := "John Doe",
               patient_gender := "M", patient_dob := "1980-01-15",
               tests := ["CBC", "GLU", "CRE"] } (by decide)).2⟩

/-- C7 counterexample: on an empty request body the validate endpoint
answers HTTP 400 (with valid:false and an error field), not HTTP 200 as
claimed. -/
theorem validate_empty_body_cex :
    (validate_hl7_message "" []).1 = (400, .invalid "No message data provided")
    ∧ ((validate_hl7_message "" []).1).1 ≠ 200 :=
  ⟨rfl, by decide⟩

/-- C7 amended: on an empty request body the receive endpoint answers
HTTP 400 with a JSON body carrying an error field, and the validate
endpoint answers HTTP 400 (not 200) with a JSON body carrying valid:false
and an error field; neither touches the store. -/
theorem empty_body_responses (now : String) (store : List MessageRecord) :
    (receive_hl7_message now "" store).1 = (400, .err "No message data provided")
    ∧ (receive_hl7_message now "" store).2 = store
    ∧ (validate_hl7_message "" store).1
        = (400, .invalid "No message data provided")
    ∧ (validate_hl7_message "" store).2 = store :=
  ⟨rfl, rfl, rfl, rfl⟩

/-- C8: the standard two-segment ADT message validates to HTTP 200 with
message_type ADT^A01, segment_count 2, has_msh true and segments
[MSH, EVN], for any prior store, which is left unchanged. -/
theorem validate_sample_message (store : List MessageRecord) :
    (validate_hl7_message
        "MSH|^~\\&|A|B|C|D|20250101120000||ADT^A01|MSG1|P|2.5\rEVN|A01\r"
        store).1
      = (200, .report (some "ADT^A01") 2 true ["MSH", "EVN"])
    ∧ (validate_hl7_message
        "MSH|^~\\&|A|B|C|D|20250101120000||ADT^A01|MSG1|P|2.5\rEVN|A01\r"
        store).2 = store :=
  ⟨rfl, rfl⟩

/-- Case analysis of the receive handler: either the pipeline succeeded
and the response and the appended record are built from the parsed
message, or the handler answered 400 and left the store alone. -/
theorem receive_hl7_cases (now body : String) (store : List MessageRecord) :
    (∃ msg mt, hl7parse body = some msg ∧ message_type_of msg = some mt ∧
        receive_hl7_message now body store
          = ((200, .success mt msg.length now),
             store ++ [{ timestamp := now, message_type := mt,
                         raw_message := body, segment_count := msg.length }]))
    ∨ (((receive_hl7_message now body store).1).1 = 400
        ∧ (receive_hl7_message now body store).2 = store) := by
  unfold receive_hl7_message
  split
  next => exact Or.inr ⟨rfl, rfl⟩
  next =>
    split
    next => exact Or.inr ⟨rfl, rfl⟩
    next msg hp =>
      split
      next => exact Or.inr ⟨rfl, rfl⟩
      next mt hm => exact Or.inl ⟨msg, mt, hp, hm, rfl⟩

/-- C9: the validate endpoint leaves the message store unchanged on every
input and every prior store; a receive call that answers success appends
exactly the one record built from the receipt timestamp, the response's
message type and segment count, and the raw original text, leaving the
prior records unchanged; a receive call that answers 400 leaves the store
unchanged. -/
theorem hl7_store_frame (now body b : String) (store st : List MessageRecord)
    (mt ts : String) (n : Nat) :
    (validate_hl7_message b st).2 = st
    ∧ ((receive_hl7_message now body store).1 = (200, .success mt n ts) →
        (receive_hl7_message now body store).2
          = store ++ [{ timestamp := now, message_type := mt,
                        raw_message := body, segment_count := n }])
    ∧ (((receive_hl7_message now body store).1).1 = 400 →
        (receive_hl7_message now body store).2 = store) := by
  refine ⟨?_, ?_, ?_⟩
  · unfold validate_hl7_message
    split
    · rfl
    · split
      · rfl
      · split
        · rfl
        · rfl
  · intro h
    rcases receive_hl7_cases now body store with ⟨msg, mt0, hp, hm, heq⟩ | ⟨h4, hst⟩
    · rw [heq] at h
      simp [Prod.mk.injEq, ReceiveResp.success.injEq] at h
      obtain ⟨hmt, hn, -⟩ := h
      rw [heq]
      subst hmt hn
      rfl
    · rw [h] at h4
      simp at h4
  · intro h
    rcases receive_hl7_cases now body store with ⟨msg, mt0, hp, hm, heq⟩ | ⟨h4, hst⟩
    · rw [heq] at h
      simp at h
    · exact hst


/-- C9 witness: validating a blob leaves the store unchanged, and a
successful receive of the two-segment ADT message appends its one
record. -/
theorem hl7_store_frame_witness :
    (validate_hl7_message "INVALID" []).2 = ([] : List MessageRecord)
    ∧ (receive_hl7_message "T0"
        "MSH|^~\\&|A|B|C|D|20250101120000||ADT^A01|MSG1|P|2.5\rEVN|A01\r"
        []).2
      = [] ++ [{ timestamp := "T0", message_type := "ADT^A01",
                 raw_message :=
                   "MSH|^~\\&|A|B|C|D|20250101120000||ADT^A01|MSG1|P|2.5\rEVN|A01\r",
                 segment_count := 2 }] := by
  have h := hl7_store_frame "T0"
    "MSH|^~\\&|A|B|C|D|20250101120000||ADT^A01|MSG1|P|2.5\rEVN|A01\r"
    "INVALID" [] [] "ADT^A01" "T0" 2
  exact ⟨h.1, h.2.1 rfl⟩

/-- C10: on each of the three gated analyzer endpoints, a token header
carrying the empty string is answered with exactly INVALID_LOGIN, the same
response as an absent header, for every server secret and clock instant on
either side — so no signature or expiry check can influence it. -/
theorem empty_token_header (samples : List (String × Sample))
    (tests : List (String × String)) (secret now secret' now' : Nat)
    (sid pd : String) :
    get_pending_tests samples secret now sid (some .empty) = "INVALID_LOGIN"
    ∧ upload_results samples secret now pd (some .empty) = "INVALID_LOGIN"
    ∧ get_tests_list tests secret now (some .empty) = "INVALID_LOGIN"
    ∧ get_pending_tests samples secret now sid (some .empty)
        = get_pending_tests samples secret' now' sid none
    ∧ upload_results samples secret now pd (some .empty)
        = upload_results samples secret' now' pd none
    ∧ get_tests_list tests secret now (some .empty)
        = get_tests_list tests secret' now' none :=
  ⟨rfl, rfl, rfl, rfl, rfl, rfl⟩

end HL7API
